import Mathlib

/-!
Shallow embedding of the task-graph construction of the `biocomp` Parsl
workflow (`parsl_workflow.py` together with the Parsl app declarations of
`apps.py`).

The orchestrator `main` of `parsl_workflow.py` builds, per dataset root
(`basedir`), a graph of Parsl app invocations.  Each call
`apps.<name>(basedir, config, ..., inputs = [...])` submits one task whose
dependency set is the list of futures passed through `inputs` (or through
positional future arguments).  We model graph construction as a state
machine over `St`: submitting a task appends a `Task` record (with a fresh
id standing for its `AppFuture`) to `St.tasks` and a `Event.submit` entry to
the trace; each `wait_for_all(...)` call of the orchestrator appends an
`Event.waitAll` entry.

Python-level failures that occur during graph construction are modelled by
`PyError`:
  * `attributeError mod attr` — an `AttributeError` raised by looking up a
    name the module does not define (the `apps` module's defined attribute
    set is transcribed in `appsAttrs`);
  * `unboundLocal v` — an `UnboundLocalError` raised by reading a local
    variable on a path where it was never assigned (`ret_sad` in `main`).

Filesystem contents are external inputs: the `glob.glob` results are
supplied by an abstract `glob : String → List String` argument, and the
input-file list of one dataset by a `files : List String` argument.
-/

namespace Biocomp

/-- One submitted Parsl task: `id` stands for its `AppFuture`, `app` is the
attribute name looked up on the `apps` module, `basedir` the dataset root it
was called with, `file` the per-file argument (`input_file` / `prune_file`)
when present, and `deps` the ids of the futures in its dependency set. -/
structure Task where
  id : Nat
  app : String
  basedir : String
  file : Option String
  deps : List Nat
deriving Repr, DecidableEq

/-- Orchestration events in program order: a task submission, or a blocking
`wait_for_all` over a list of futures. -/
inductive Event where
  | submit (t : Task)
  | waitAll (ids : List Nat)
deriving Repr, DecidableEq

/-- Python exceptions that can arise while `main` constructs the graph. -/
inductive PyError where
  | attributeError (module attr : String)
  | unboundLocal (v : String)
deriving Repr, DecidableEq

/-- Graph-construction state: fresh-id counter, tasks in submission order,
and the orchestration trace. -/
structure St where
  next : Nat
  tasks : List Task
  trace : List Event
deriving Repr, DecidableEq

/-- The empty initial state. -/
def st0 : St := { next := 0, tasks := [], trace := [] }

deriving instance DecidableEq for Except

/-- The configuration fields of `bioconfig.BioConfig` that
`parsl_workflow.main` and the `raxml` app body read. -/
structure Config where
  tree_method : String
  network_method : String
  workload : List String
  raxml_threads : Nat
  raxml : String
  raxml_exec_param : String
  raxml_dir : String
deriving Repr, DecidableEq

/-- The attribute names the module `apps` (file `apps.py`) actually defines
as Parsl apps.  Note: there is no `setup_qmc`. -/
def appsAttrs : List String :=
  ["setup_phylip_data", "raxml", "setup_tree_output", "astral", "snaq",
   "mrbayes", "mbsum", "setup_bucky_data", "bucky", "setup_bucky_output",
   "setup_qmc_data", "quartet_maxcut", "setup_qmc_output",
   "setup_phylonet_data", "phylonet", "clear_temporary_files",
   "create_folders", "iqtree"]

/-- Append a freshly-submitted task, returning the new state and the id of
the task's future. -/
def pushTask (name basedir : String) (file : Option String) (deps : List Nat)
    (st : St) : St × Nat :=
  let t : Task := ⟨st.next, name, basedir, file, deps⟩
  ({ next := st.next + 1
     tasks := st.tasks ++ [t]
     trace := st.trace ++ [Event.submit t] }, st.next)

/-- Model of the Python call `apps.<name>(basedir, ..., inputs = deps)`:
first the attribute lookup on the `apps` module (raising `AttributeError`
when the name is not defined), then submission of the task. -/
def callApp (name basedir : String) (file : Option String) (deps : List Nat)
    (st : St) : St × Except PyError Nat :=
  if name ∈ appsAttrs then
    let p := pushTask name basedir file deps st
    (p.1, Except.ok p.2)
  else (st, Except.error (PyError.attributeError "apps" name))

/-- Model of `workflow.wait_for_all(futures)` during orchestration: a
blocking barrier recorded in the trace. -/
def waitAll (ids : List Nat) (st : St) : St :=
  { st with trace := st.trace ++ [Event.waitAll ids] }

/-- `os.path.join` for the relative paths `main` builds. -/
def pyJoin (a b : String) : String := a ++ "/" ++ b

/-- The `convert_to_phylip` flag of the first loop of `main`: initialised
`True`; the `elif bio_config.tree_method == "BI_MRBAYES"` arm (reachable
only when `network_method != "MPL"`) resets it to `False`. -/
def convert_to_phylip (cfg : Config) : Bool :=
  if cfg.network_method = "MPL" then true
  else if cfg.tree_method = "BI_MRBAYES" then false
  else true

/-- The `folder_list` accumulated by the first loop of `main` (the inner
`if bio_config.network_method != "BI_MRBAYES"` test is transcribed as
written in the source, comparing `network_method` against `"BI_MRBAYES"`). -/
def folder_list (cfg : Config) : List String :=
  (if cfg.tree_method = "ML-RAXML" then ["raxml"]
   else if cfg.tree_method = "ML-IQTREE" then ["iqtree"] else [])
  ++ (if cfg.network_method = "MPL" then
        (if cfg.network_method ≠ "BI_MRBAYES" then ["astral"] else [])
          ++ ["snaq"]
      else if cfg.tree_method = "BI_MRBAYES" then
        ["mrbayes", "bucky", "mbsum", "qmc"]
      else [])

/-- Body of the first loop of `main` for one dataset: optionally submit
`setup_phylip_data`, then submit `create_folders`; returns the futures this
iteration appends to `result`. -/
def setupStage (cfg : Config) (basedir : String) (st : St) :
    St × Except PyError (List Nat) :=
  if convert_to_phylip cfg = false then
    match callApp "setup_phylip_data" basedir none [] st with
    | (st1, Except.error e) => (st1, Except.error e)
    | (st1, Except.ok i) =>
      match callApp "create_folders" basedir none [] st1 with
      | (st2, Except.error e) => (st2, Except.error e)
      | (st2, Except.ok j) => (st2, Except.ok [i, j])
  else
    match callApp "create_folders" basedir none [] st with
    | (st1, Except.error e) => (st1, Except.error e)
    | (st1, Except.ok j) => (st1, Except.ok [j])

/-- The `datalist` computed per dataset in the second loop of `main`: a
glob over `input/nexus/*.nex` for the Bayesian branch and over
`input/phylip/*.phy` otherwise. -/
def datalistOf (glob : String → List String) (cfg : Config)
    (basedir : String) : List String :=
  if cfg.tree_method = "BI_MRBAYES" then
    glob (pyJoin (pyJoin (pyJoin basedir "input") "nexus") "*.nex")
  else
    glob (pyJoin (pyJoin (pyJoin basedir "input") "phylip") "*.phy")

/-- The per-file fan-out loop of the ML tree branches
(`for input_file in datalist: ret = apps.<app>(basedir, bio_config,
input_file)`), collecting the per-file futures in order. -/
def mlFanOut (app basedir : String) : List String → St →
    St × Except PyError (List Nat)
  | [], st => (st, Except.ok [])
  | f :: fs, st =>
    match callApp app basedir (some f) [] st with
    | (st1, Except.error e) => (st1, Except.error e)
    | (st1, Except.ok i) =>
      match mlFanOut app basedir fs st1 with
      | (st2, Except.error e) => (st2, Except.error e)
      | (st2, Except.ok is) => (st2, Except.ok (i :: is))

/-- The per-file loop of the Bayesian branch: for each file, submit
`mrbayes` (no upstream dependency) and then `mbsum` with
`inputs = [ret_mb]`; collect the `mbsum` futures (`ret_mbsum`). -/
def mrbayesFanOut (basedir : String) : List String → St →
    St × Except PyError (List Nat)
  | [], st => (st, Except.ok [])
  | f :: fs, st =>
    match callApp "mrbayes" basedir (some f) [] st with
    | (st1, Except.error e) => (st1, Except.error e)
    | (st1, Except.ok mb) =>
      match callApp "mbsum" basedir (some f) [mb] st1 with
      | (st2, Except.error e) => (st2, Except.error e)
      | (st2, Except.ok ms) =>
        match mrbayesFanOut basedir fs st2 with
        | (st3, Except.error e) => (st3, Except.error e)
        | (st3, Except.ok rest) => (st3, Except.ok (ms :: rest))

/-- The `bucky` loop: `prune_trees` is (by a source slip) the *string*
`os.path.join(basedir, "bucky")`, so the loop iterates over its characters,
submitting one `bucky` task per character with `inputs = [ret_pre_bucky]`. -/
def buckyFanOut (basedir : String) (preBucky : Nat) : List Char → St →
    St × Except PyError (List Nat)
  | [], st => (st, Except.ok [])
  | c :: cs, st =>
    match callApp "bucky" basedir (some c.toString) [preBucky] st with
    | (st1, Except.error e) => (st1, Except.error e)
    | (st1, Except.ok i) =>
      match buckyFanOut basedir preBucky cs st1 with
      | (st2, Except.error e) => (st2, Except.error e)
      | (st2, Except.ok is) => (st2, Except.ok (i :: is))

/-- Tail of the Bayesian branch after the `mbsum` fan-in barrier:
`setup_bucky_data`, the character-wise `bucky` fan-out, `setup_bucky_output`,
`setup_qmc_data`, and then the `apps.setup_qmc` lookups (which the `apps`
module does not define).  Returns `ret_tree`. -/
def mrbayesTail (basedir : String) (mbsumIds : List Nat) (st : St) :
    St × Except PyError (List Nat) :=
  match callApp "setup_bucky_data" basedir none mbsumIds st with
  | (st1, Except.error e) => (st1, Except.error e)
  | (st1, Except.ok preBucky) =>
    match buckyFanOut basedir preBucky (pyJoin basedir "bucky").data st1 with
    | (st2, Except.error e) => (st2, Except.error e)
    | (st2, Except.ok buckyIds) =>
      let st3 := waitAll buckyIds st2
      match callApp "setup_bucky_output" basedir none buckyIds st3 with
      | (st4, Except.error e) => (st4, Except.error e)
      | (st4, Except.ok postBucky) =>
        match callApp "setup_qmc_data" basedir none [postBucky] st4 with
        | (st5, Except.error e) => (st5, Except.error e)
        | (st5, Except.ok preQmc) =>
          match callApp "setup_qmc" basedir none [preQmc] st5 with
          | (st6, Except.error e) => (st6, Except.error e)
          | (st6, Except.ok qmc) =>
            match callApp "setup_qmc" basedir none [qmc] st6 with
            | (st7, Except.error e) => (st7, Except.error e)
            | (st7, Except.ok qmcOut) =>
              (waitAll [qmcOut] st7, Except.ok [qmcOut])

/-- The tree-inference section of the second loop of `main` for one
dataset: returns `(ret_tree, ret_sad)` where `ret_sad` is `none` on every
path on which the Python local `ret_sad` is never assigned (it is assigned
only in the final `else` branch). -/
def treeStage (cfg : Config) (basedir : String) (files : List String)
    (st : St) : St × Except PyError (List Nat × Option Nat) :=
  if cfg.tree_method = "ML-RAXML" then
    match mlFanOut "raxml" basedir files st with
    | (st1, Except.error e) => (st1, Except.error e)
    | (st1, Except.ok ids) => (waitAll ids st1, Except.ok (ids, none))
  else if cfg.tree_method = "ML-IQTREE" then
    match mlFanOut "iqtree" basedir files st with
    | (st1, Except.error e) => (st1, Except.error e)
    | (st1, Except.ok ids) => (waitAll ids st1, Except.ok (ids, none))
  else if cfg.tree_method = "BI_MRBAYES" then
    match mrbayesFanOut basedir files st with
    | (st1, Except.error e) => (st1, Except.error e)
    | (st1, Except.ok mbsumIds) =>
      match mrbayesTail basedir mbsumIds (waitAll mbsumIds st1) with
      | (st2, Except.error e) => (st2, Except.error e)
      | (st2, Except.ok retTree) => (st2, Except.ok (retTree, none))
  else
    match callApp "setup_tree_output" basedir none [] st with
    | (st1, Except.error e) => (st1, Except.error e)
    | (st1, Except.ok sad) => (st1, Except.ok ([], some sad))

/-- The network-inference section of the second loop of `main` for one
dataset.  Reading `ret_sad` on the MPL path raises `UnboundLocalError` when
no branch assigned it.  Returns the future appended to `result` (the
`clear_temporary_files` future), or `none` when the `network_method`
matches neither branch. -/
def networkStage (cfg : Config) (basedir : String) (retTree : List Nat)
    (retSad : Option Nat) (st : St) : St × Except PyError (Option Nat) :=
  if cfg.network_method = "MPL" then
    match retSad with
    | none => (st, Except.error (PyError.unboundLocal "ret_sad"))
    | some sad =>
      match callApp "astral" basedir none [sad] st with
      | (st1, Except.error e) => (st1, Except.error e)
      | (st1, Except.ok ast) =>
        match callApp "snaq" basedir none [ast] st1 with
        | (st2, Except.error e) => (st2, Except.error e)
        | (st2, Except.ok snq) =>
          match callApp "clear_temporary_files" basedir none [snq] st2 with
          | (st3, Except.error e) => (st3, Except.error e)
          | (st3, Except.ok clr) => (st3, Except.ok (some clr))
  else if cfg.network_method = "MP" then
    match callApp "setup_phylonet_data" basedir none retTree st with
    | (st1, Except.error e) => (st1, Except.error e)
    | (st1, Except.ok spd) =>
      match callApp "phylonet" basedir none [spd] st1 with
      | (st2, Except.error e) => (st2, Except.error e)
      | (st2, Except.ok phy) =>
        match callApp "clear_temporary_files" basedir none [phy] st2 with
        | (st3, Except.error e) => (st3, Except.error e)
        | (st3, Except.ok clr) => (st3, Except.ok (some clr))
  else (st, Except.ok none)

/-- The whole second-loop body of `main` for one dataset root. -/
def buildDataset (cfg : Config) (basedir : String) (files : List String)
    (st : St) : St × Except PyError (Option Nat) :=
  match treeStage cfg basedir files st with
  | (st1, Except.error e) => (st1, Except.error e)
  | (st1, Except.ok rs) => networkStage cfg basedir rs.1 rs.2 st1

/-- The first loop of `main` over `bio_config.workload`, accumulating the
`result` futures of the setup stage. -/
def loop1 (cfg : Config) : List String → St → St × Except PyError (List Nat)
  | [], st => (st, Except.ok [])
  | d :: ds, st =>
    match setupStage cfg d st with
    | (st1, Except.error e) => (st1, Except.error e)
    | (st1, Except.ok ids) =>
      match loop1 cfg ds st1 with
      | (st2, Except.error e) => (st2, Except.error e)
      | (st2, Except.ok rest) => (st2, Except.ok (ids ++ rest))

/-- The second loop of `main` over `bio_config.workload`, accumulating the
`result` futures (one `clear_temporary_files` future per dataset whose
network branch matched). -/
def loop2 (cfg : Config) (glob : String → List String) :
    List String → St → St × Except PyError (List Nat)
  | [], st => (st, Except.ok [])
  | d :: ds, st =>
    match buildDataset cfg d (datalistOf glob cfg d) st with
    | (st1, Except.error e) => (st1, Except.error e)
    | (st1, Except.ok r) =>
      match loop2 cfg glob ds st1 with
      | (st2, Except.error e) => (st2, Except.error e)
      | (st2, Except.ok rest) => (st2, Except.ok (r.toList ++ rest))

/-- `parsl_workflow.main`: the setup loop over all datasets, a
`wait_for_all` barrier over all setup futures, the per-dataset
graph-construction loop, and a final `wait_for_all` over the collected
cleanup futures. -/
def runMain (cfg : Config) (glob : String → List String) :
    St × Except PyError Unit :=
  match loop1 cfg cfg.workload st0 with
  | (st1, Except.error e) => (st1, Except.error e)
  | (st1, Except.ok res1) =>
    match loop2 cfg glob cfg.workload (waitAll res1 st1) with
    | (st2, Except.error e) => (st2, Except.error e)
    | (st2, Except.ok res2) => (waitAll res2 st2, Except.ok ())

/-- `os.path.basename`: the substring after the last slash. -/
def pyBasename (s : String) : String := (s.splitOn "/").getLastD ""

/-- The command string the `raxml` Parsl bash app (file `apps.py`) returns,
as a function of the two `random.randint(1, 10000)` draws `p` and `x`. -/
def raxmlCmd (basedir : String) (config : Config) (input_file : String)
    (p x : Nat) : String :=
  let num_threads := config.raxml_threads
  let raxml_exec := config.raxml
  let exec_param := config.raxml_exec_param
  let raxml_dir := basedir ++ "/" ++ config.raxml_dir
  let flags := "-T " ++ toString num_threads ++ " " ++ exec_param
  let output_file := ((pyBasename input_file).splitOn ".").headD ""
  "cd " ++ raxml_dir ++ "; " ++ raxml_exec ++ " " ++ flags ++
    " -p " ++ toString p ++ " -x " ++ toString x ++
    " -s " ++ input_file ++ " -n " ++ output_file

/-! ## Closed forms for the fan-out loops -/

/-- The block of tasks an ML fan-out submits: one task per input file, with
consecutive ids starting at `n`, each with an empty dependency set. -/
def mlBlock (app basedir : String) : List String → Nat → List Task
  | [], _ => []
  | f :: fs, n => ⟨n, app, basedir, some f, []⟩ :: mlBlock app basedir fs (n + 1)

/-- The block of tasks the Bayesian fan-out submits: per file a `mrbayes`
task and a `mbsum` task depending on it, ids interleaved from `n`. -/
def mrbayesBlock (basedir : String) : List String → Nat → List Task
  | [], _ => []
  | f :: fs, n =>
    ⟨n, "mrbayes", basedir, some f, []⟩ ::
      ⟨n + 1, "mbsum", basedir, some f, [n]⟩ :: mrbayesBlock basedir fs (n + 2)

/-- The block of `bucky` tasks: one per character, each depending on the
`setup_bucky_data` future `pre`. -/
def buckyBlock (basedir : String) (pre : Nat) : List Char → Nat → List Task
  | [], _ => []
  | c :: cs, n =>
    ⟨n, "bucky", basedir, some c.toString, [pre]⟩ :: buckyBlock basedir pre cs (n + 1)

lemma callApp_ok (name basedir : String) (file : Option String)
    (deps : List Nat) (st : St) (h : name ∈ appsAttrs) :
    callApp name basedir file deps st =
      ({ next := st.next + 1
         tasks := st.tasks ++ [⟨st.next, name, basedir, file, deps⟩]
         trace := st.trace ++ [Event.submit ⟨st.next, name, basedir, file, deps⟩] },
       Except.ok st.next) := by
  simp [callApp, pushTask, h]

lemma callApp_err (name basedir : String) (file : Option String)
    (deps : List Nat) (st : St) (h : name ∉ appsAttrs) :
    callApp name basedir file deps st =
      (st, Except.error (PyError.attributeError "apps" name)) := by
  simp [callApp, h]

lemma mlFanOut_eq (app basedir : String) (h : app ∈ appsAttrs) :
    ∀ (files : List String) (st : St),
    mlFanOut app basedir files st =
      ({ next := st.next + files.length
         tasks := st.tasks ++ mlBlock app basedir files st.next
         trace := st.trace ++ (mlBlock app basedir files st.next).map Event.submit },
       Except.ok (List.range' st.next files.length))
  | [], st => by simp [mlFanOut, mlBlock]
  | f :: fs, st => by
    simp only [mlFanOut, callApp_ok app basedir (some f) [] st h,
      mlFanOut_eq app basedir h fs]
    simp [mlBlock, List.range'_succ]
    omega

lemma mrbayesFanOut_eq (basedir : String) :
    ∀ (files : List String) (st : St),
    mrbayesFanOut basedir files st =
      ({ next := st.next + 2 * files.length
         tasks := st.tasks ++ mrbayesBlock basedir files st.next
         trace := st.trace ++ (mrbayesBlock basedir files st.next).map Event.submit },
       Except.ok (List.range' (st.next + 1) files.length 2))
  | [], st => by simp [mrbayesFanOut, mrbayesBlock]
  | f :: fs, st => by
    simp only [mrbayesFanOut, callApp_ok "mrbayes" basedir (some f) [] st (by decide),
      callApp_ok "mbsum" basedir (some f) _ _ (by decide),
      mrbayesFanOut_eq basedir fs]
    simp [mrbayesBlock, List.range'_succ]
    omega

lemma buckyFanOut_eq (basedir : String) (pre : Nat) :
    ∀ (cs : List Char) (st : St),
    buckyFanOut basedir pre cs st =
      ({ next := st.next + cs.length
         tasks := st.tasks ++ buckyBlock basedir pre cs st.next
         trace := st.trace ++ (buckyBlock basedir pre cs st.next).map Event.submit },
       Except.ok (List.range' st.next cs.length))
  | [], st => by simp [buckyFanOut, buckyBlock]
  | c :: cs, st => by
    simp only [buckyFanOut, callApp_ok "bucky" basedir (some c.toString) [pre] st (by decide),
      buckyFanOut_eq basedir pre cs]
    simp [buckyBlock, List.range'_succ]
    omega

/-- Closed form of the Bayesian-branch tail: it always ends in the
`AttributeError` raised by the `apps.setup_qmc` lookup, after submitting
`setup_bucky_data`, the character-wise `bucky` fan-out, a barrier,
`setup_bucky_output` and `setup_qmc_data`. -/
lemma mrbayesTail_eq (basedir : String) (mbsumIds : List Nat) (st : St) :
    mrbayesTail basedir mbsumIds st =
      ({ next := st.next + (pyJoin basedir "bucky").data.length + 3
         tasks := st.tasks ++
           ⟨st.next, "setup_bucky_data", basedir, none, mbsumIds⟩ ::
             (buckyBlock basedir st.next (pyJoin basedir "bucky").data (st.next + 1) ++
               [⟨st.next + 1 + (pyJoin basedir "bucky").data.length,
                 "setup_bucky_output", basedir, none,
                 List.range' (st.next + 1) (pyJoin basedir "bucky").data.length⟩,
                ⟨st.next + 2 + (pyJoin basedir "bucky").data.length,
                 "setup_qmc_data", basedir, none,
                 [st.next + 1 + (pyJoin basedir "bucky").data.length]⟩])
         trace := st.trace ++
           Event.submit ⟨st.next, "setup_bucky_data", basedir, none, mbsumIds⟩ ::
             ((buckyBlock basedir st.next (pyJoin basedir "bucky").data (st.next + 1)).map
                 Event.submit ++
               [Event.waitAll (List.range' (st.next + 1) (pyJoin basedir "bucky").data.length),
                Event.submit ⟨st.next + 1 + (pyJoin basedir "bucky").data.length,
                  "setup_bucky_output", basedir, none,
                  List.range' (st.next + 1) (pyJoin basedir "bucky").data.length⟩,
                Event.submit ⟨st.next + 2 + (pyJoin basedir "bucky").data.length,
                  "setup_qmc_data", basedir, none,
                  [st.next + 1 + (pyJoin basedir "bucky").data.length]⟩]) },
       Except.error (PyError.attributeError "apps" "setup_qmc")) := by
  simp only [mrbayesTail, callApp_ok "setup_bucky_data" basedir none mbsumIds st (by decide),
    buckyFanOut_eq, waitAll,
    callApp_ok "setup_bucky_output" basedir none _ _ (by decide),
    callApp_ok "setup_qmc_data" basedir none _ _ (by decide),
    callApp_err "setup_qmc" basedir none _ _ (by decide)]
  simp
  omega

/-! ## Branch lemmas for the tree, network and setup stages -/

/-- The per-file app name the ML branches fan out. -/
def mlApp (cfg : Config) : String :=
  if cfg.tree_method = "ML-RAXML" then "raxml" else "iqtree"

lemma mlApp_mem (cfg : Config) : mlApp cfg ∈ appsAttrs := by
  unfold mlApp; split <;> decide

lemma treeStage_ml_eq (cfg : Config) (basedir : String) (files : List String)
    (st : St)
    (h : cfg.tree_method = "ML-RAXML" ∨ cfg.tree_method = "ML-IQTREE") :
    treeStage cfg basedir files st =
      ({ next := st.next + files.length
         tasks := st.tasks ++ mlBlock (mlApp cfg) basedir files st.next
         trace := st.trace ++
           (mlBlock (mlApp cfg) basedir files st.next).map Event.submit ++
             [Event.waitAll (List.range' st.next files.length)]
         }, Except.ok (List.range' st.next files.length, none)) := by
  rcases h with h | h
  · simp [treeStage, h, mlApp, mlFanOut_eq "raxml" basedir (by decide) files st, waitAll]
  · simp [treeStage, h, mlApp, mlFanOut_eq "iqtree" basedir (by decide) files st, waitAll]

lemma treeStage_bi_eq (cfg : Config) (basedir : String) (files : List String)
    (st : St) (h : cfg.tree_method = "BI_MRBAYES") :
    treeStage cfg basedir files st =
      (((mrbayesTail basedir (List.range' (st.next + 1) files.length 2)
          (waitAll (List.range' (st.next + 1) files.length 2)
            { next := st.next + 2 * files.length
              tasks := st.tasks ++ mrbayesBlock basedir files st.next
              trace := st.trace ++
                (mrbayesBlock basedir files st.next).map Event.submit })).1,
        Except.error (PyError.attributeError "apps" "setup_qmc"))) := by
  simp [treeStage, h, mrbayesFanOut_eq basedir files st, mrbayesTail_eq]

lemma treeStage_else_eq (cfg : Config) (basedir : String) (files : List String)
    (st : St) (h1 : cfg.tree_method ≠ "ML-RAXML")
    (h2 : cfg.tree_method ≠ "ML-IQTREE") (h3 : cfg.tree_method ≠ "BI_MRBAYES") :
    treeStage cfg basedir files st =
      ({ next := st.next + 1
         tasks := st.tasks ++ [⟨st.next, "setup_tree_output", basedir, none, []⟩]
         trace := st.trace ++
           [Event.submit ⟨st.next, "setup_tree_output", basedir, none, []⟩] },
       Except.ok ([], some st.next)) := by
  simp [treeStage, h1, h2, h3,
    callApp_ok "setup_tree_output" basedir none [] st (by decide)]

lemma networkStage_mpl_none (cfg : Config) (basedir : String)
    (retTree : List Nat) (st : St) (h : cfg.network_method = "MPL") :
    networkStage cfg basedir retTree none st =
      (st, Except.error (PyError.unboundLocal "ret_sad")) := by
  simp [networkStage, h]

lemma networkStage_mpl_some (cfg : Config) (basedir : String)
    (retTree : List Nat) (sad : Nat) (st : St) (h : cfg.network_method = "MPL") :
    networkStage cfg basedir retTree (some sad) st =
      ({ next := st.next + 3
         tasks := st.tasks ++
           [⟨st.next, "astral", basedir, none, [sad]⟩,
            ⟨st.next + 1, "snaq", basedir, none, [st.next]⟩,
            ⟨st.next + 2, "clear_temporary_files", basedir, none, [st.next + 1]⟩]
         trace := st.trace ++
           [Event.submit ⟨st.next, "astral", basedir, none, [sad]⟩,
            Event.submit ⟨st.next + 1, "snaq", basedir, none, [st.next]⟩,
            Event.submit
              ⟨st.next + 2, "clear_temporary_files", basedir, none, [st.next + 1]⟩] },
       Except.ok (some (st.next + 2))) := by
  simp only [networkStage, h, if_pos,
    callApp_ok "astral" basedir none [sad] st (by decide),
    callApp_ok "snaq" basedir none _ _ (by decide),
    callApp_ok "clear_temporary_files" basedir none _ _ (by decide)]
  simp

lemma networkStage_mp (cfg : Config) (basedir : String) (retTree : List Nat)
    (retSad : Option Nat) (st : St) (h : cfg.network_method = "MP") :
    networkStage cfg basedir retTree retSad st =
      ({ next := st.next + 3
         tasks := st.tasks ++
           [⟨st.next, "setup_phylonet_data", basedir, none, retTree⟩,
            ⟨st.next + 1, "phylonet", basedir, none, [st.next]⟩,
            ⟨st.next + 2, "clear_temporary_files", basedir, none, [st.next + 1]⟩]
         trace := st.trace ++
           [Event.submit ⟨st.next, "setup_phylonet_data", basedir, none, retTree⟩,
            Event.submit ⟨st.next + 1, "phylonet", basedir, none, [st.next]⟩,
            Event.submit
              ⟨st.next + 2, "clear_temporary_files", basedir, none, [st.next + 1]⟩] },
       Except.ok (some (st.next + 2))) := by
  simp only [networkStage, h,
    callApp_ok "setup_phylonet_data" basedir none retTree st (by decide),
    callApp_ok "phylonet" basedir none _ _ (by decide),
    callApp_ok "clear_temporary_files" basedir none _ _ (by decide)]
  simp

lemma networkStage_other (cfg : Config) (basedir : String) (retTree : List Nat)
    (retSad : Option Nat) (st : St) (h1 : cfg.network_method ≠ "MPL")
    (h2 : cfg.network_method ≠ "MP") :
    networkStage cfg basedir retTree retSad st = (st, Except.ok none) := by
  simp [networkStage, h1, h2]

lemma setupStage_conv_true (cfg : Config) (basedir : String) (st : St)
    (h : convert_to_phylip cfg = true) :
    setupStage cfg basedir st =
      ({ next := st.next + 1
         tasks := st.tasks ++ [⟨st.next, "create_folders", basedir, none, []⟩]
         trace := st.trace ++
           [Event.submit ⟨st.next, "create_folders", basedir, none, []⟩] },
       Except.ok [st.next]) := by
  simp [setupStage, h, callApp_ok "create_folders" basedir none [] st (by decide)]

lemma setupStage_conv_false (cfg : Config) (basedir : String) (st : St)
    (h : convert_to_phylip cfg = false) :
    setupStage cfg basedir st =
      ({ next := st.next + 2
         tasks := st.tasks ++
           [⟨st.next, "setup_phylip_data", basedir, none, []⟩,
            ⟨st.next + 1, "create_folders", basedir, none, []⟩]
         trace := st.trace ++
           [Event.submit ⟨st.next, "setup_phylip_data", basedir, none, []⟩,
            Event.submit ⟨st.next + 1, "create_folders", basedir, none, []⟩] },
       Except.ok [st.next, st.next + 1]) := by
  simp only [setupStage, h,
    callApp_ok "setup_phylip_data" basedir none [] st (by decide),
    callApp_ok "create_folders" basedir none _ _ (by decide)]
  simp

/-- ML tree branch followed by the MP network branch: the per-file fan-out,
the barrier, then `setup_phylonet_data` (depending directly on the per-file
futures), `phylonet` and `clear_temporary_files`. -/
lemma buildDataset_ml_mp_eq (cfg : Config) (basedir : String)
    (files : List String) (st : St)
    (h1 : cfg.tree_method = "ML-RAXML" ∨ cfg.tree_method = "ML-IQTREE")
    (h2 : cfg.network_method = "MP") :
    buildDataset cfg basedir files st =
      ({ next := st.next + files.length + 3
         tasks := st.tasks ++ mlBlock (mlApp cfg) basedir files st.next ++
           [⟨st.next + files.length, "setup_phylonet_data", basedir, none,
             List.range' st.next files.length⟩,
            ⟨st.next + files.length + 1, "phylonet", basedir, none,
             [st.next + files.length]⟩,
            ⟨st.next + files.length + 2, "clear_temporary_files", basedir, none,
             [st.next + files.length + 1]⟩]
         trace := st.trace ++
           (mlBlock (mlApp cfg) basedir files st.next).map Event.submit ++
           [Event.waitAll (List.range' st.next files.length)] ++
           [Event.submit ⟨st.next + files.length, "setup_phylonet_data", basedir,
              none, List.range' st.next files.length⟩,
            Event.submit ⟨st.next + files.length + 1, "phylonet", basedir, none,
              [st.next + files.length]⟩,
            Event.submit ⟨st.next + files.length + 2, "clear_temporary_files",
              basedir, none, [st.next + files.length + 1]⟩] },
       Except.ok (some (st.next + files.length + 2))) := by
  simp only [buildDataset, treeStage_ml_eq cfg basedir files st h1,
    networkStage_mp cfg basedir _ _ _ h2]

/-- ML tree branch followed by the MPL network branch: the build raises
`UnboundLocalError` at the `astral(inputs=[ret_sad])` call, after having
submitted only the per-file fan-out tasks. -/
lemma buildDataset_ml_mpl_eq (cfg : Config) (basedir : String)
    (files : List String) (st : St)
    (h1 : cfg.tree_method = "ML-RAXML" ∨ cfg.tree_method = "ML-IQTREE")
    (h2 : cfg.network_method = "MPL") :
    buildDataset cfg basedir files st =
      ({ next := st.next + files.length
         tasks := st.tasks ++ mlBlock (mlApp cfg) basedir files st.next
         trace := st.trace ++
           (mlBlock (mlApp cfg) basedir files st.next).map Event.submit ++
             [Event.waitAll (List.range' st.next files.length)] },
       Except.error (PyError.unboundLocal "ret_sad")) := by
  simp only [buildDataset, treeStage_ml_eq cfg basedir files st h1,
    networkStage_mpl_none cfg basedir _ _ h2]

/-- Bayesian tree branch: the build raises `AttributeError` on the
`apps.setup_qmc` lookup, whatever the network method. -/
lemma buildDataset_bi_eq (cfg : Config) (basedir : String)
    (files : List String) (st : St) (h : cfg.tree_method = "BI_MRBAYES") :
    buildDataset cfg basedir files st =
      ((mrbayesTail basedir (List.range' (st.next + 1) files.length 2)
          (waitAll (List.range' (st.next + 1) files.length 2)
            { next := st.next + 2 * files.length
              tasks := st.tasks ++ mrbayesBlock basedir files st.next
              trace := st.trace ++
                (mrbayesBlock basedir files st.next).map Event.submit })).1,
       Except.error (PyError.attributeError "apps" "setup_qmc")) := by
  simp only [buildDataset, treeStage_bi_eq cfg basedir files st h]

/-- Unrecognized tree method with MPL network: `setup_tree_output` is
created (in the `else` arm) and the `astral → snaq → cleanup` chain is
attached to it. -/
lemma buildDataset_else_mpl_eq (cfg : Config) (basedir : String)
    (files : List String) (st : St) (h1 : cfg.tree_method ≠ "ML-RAXML")
    (h2 : cfg.tree_method ≠ "ML-IQTREE") (h3 : cfg.tree_method ≠ "BI_MRBAYES")
    (h4 : cfg.network_method = "MPL") :
    buildDataset cfg basedir files st =
      ({ next := st.next + 4
         tasks := st.tasks ++
           [⟨st.next, "setup_tree_output", basedir, none, []⟩,
            ⟨st.next + 1, "astral", basedir, none, [st.next]⟩,
            ⟨st.next + 2, "snaq", basedir, none, [st.next + 1]⟩,
            ⟨st.next + 3, "clear_temporary_files", basedir, none, [st.next + 2]⟩]
         trace := st.trace ++
           [Event.submit ⟨st.next, "setup_tree_output", basedir, none, []⟩,
            Event.submit ⟨st.next + 1, "astral", basedir, none, [st.next]⟩,
            Event.submit ⟨st.next + 2, "snaq", basedir, none, [st.next + 1]⟩,
            Event.submit
              ⟨st.next + 3, "clear_temporary_files", basedir, none, [st.next + 2]⟩] },
       Except.ok (some (st.next + 3))) := by
  simp only [buildDataset, treeStage_else_eq cfg basedir files st h1 h2 h3,
    networkStage_mpl_some cfg basedir _ _ _ h4]
  simp

/-- Unrecognized tree method with MP network: `setup_tree_output` is
created, then `setup_phylonet_data` over the *empty* `ret_tree`,
`phylonet` and the cleanup task. -/
lemma buildDataset_else_mp_eq (cfg : Config) (basedir : String)
    (files : List String) (st : St) (h1 : cfg.tree_method ≠ "ML-RAXML")
    (h2 : cfg.tree_method ≠ "ML-IQTREE") (h3 : cfg.tree_method ≠ "BI_MRBAYES")
    (h4 : cfg.network_method = "MP") :
    buildDataset cfg basedir files st =
      ({ next := st.next + 4
         tasks := st.tasks ++
           [⟨st.next, "setup_tree_output", basedir, none, []⟩,
            ⟨st.next + 1, "setup_phylonet_data", basedir, none, []⟩,
            ⟨st.next + 2, "phylonet", basedir, none, [st.next + 1]⟩,
            ⟨st.next + 3, "clear_temporary_files", basedir, none, [st.next + 2]⟩]
         trace := st.trace ++
           [Event.submit ⟨st.next, "setup_tree_output", basedir, none, []⟩,
            Event.submit ⟨st.next + 1, "setup_phylonet_data", basedir, none, []⟩,
            Event.submit ⟨st.next + 2, "phylonet", basedir, none, [st.next + 1]⟩,
            Event.submit
              ⟨st.next + 3, "clear_temporary_files", basedir, none, [st.next + 2]⟩] },
       Except.ok (some (st.next + 3))) := by
  simp only [buildDataset, treeStage_else_eq cfg basedir files st h1 h2 h3,
    networkStage_mp cfg basedir _ _ _ h4]
  simp

/-- Unrecognized tree method and unrecognized network method: only the
`setup_tree_output` task is created, and no error is raised. -/
lemma buildDataset_else_other_eq (cfg : Config) (basedir : String)
    (files : List String) (st : St) (h1 : cfg.tree_method ≠ "ML-RAXML")
    (h2 : cfg.tree_method ≠ "ML-IQTREE") (h3 : cfg.tree_method ≠ "BI_MRBAYES")
    (h4 : cfg.network_method ≠ "MPL") (h5 : cfg.network_method ≠ "MP") :
    buildDataset cfg basedir files st =
      ({ next := st.next + 1
         tasks := st.tasks ++ [⟨st.next, "setup_tree_output", basedir, none, []⟩]
         trace := st.trace ++
           [Event.submit ⟨st.next, "setup_tree_output", basedir, none, []⟩] },
       Except.ok none) := by
  simp only [buildDataset, treeStage_else_eq cfg basedir files st h1 h2 h3,
    networkStage_other cfg basedir _ _ _ h4 h5]

/-! ## Properties of the fan-out blocks -/

lemma mlBlock_fields (app basedir : String) :
    ∀ (files : List String) (n : Nat), ∀ t ∈ mlBlock app basedir files n,
      t.app = app ∧ t.basedir = basedir ∧ t.deps = []
  | [], _ => by simp [mlBlock]
  | f :: fs, n => by
    simp only [mlBlock, List.mem_cons]
    rintro t (rfl | ht)
    · exact ⟨rfl, rfl, rfl⟩
    · exact mlBlock_fields app basedir fs (n + 1) t ht

lemma mlBlock_map_id (app basedir : String) :
    ∀ (files : List String) (n : Nat),
      (mlBlock app basedir files n).map Task.id = List.range' n files.length
  | [], _ => by simp [mlBlock]
  | f :: fs, n => by
    simp [mlBlock, List.range'_succ, mlBlock_map_id app basedir fs (n + 1)]

lemma mlBlock_file (app basedir : String) :
    ∀ (files : List String) (n : Nat), ∀ f ∈ files,
      ∃ t ∈ mlBlock app basedir files n, t.file = some f
  | [], _ => by simp
  | g :: fs, n => by
    intro f hf
    rcases List.mem_cons.mp hf with rfl | hf
    · exact ⟨⟨n, app, basedir, some f, []⟩, by simp [mlBlock], rfl⟩
    · obtain ⟨t, ht, hfile⟩ := mlBlock_file app basedir fs (n + 1) f hf
      exact ⟨t, by simp [mlBlock, ht], hfile⟩

lemma mrbayesBlock_fields (basedir : String) :
    ∀ (files : List String) (n : Nat), ∀ t ∈ mrbayesBlock basedir files n,
      (t.app = "mrbayes" ∨ t.app = "mbsum") ∧ t.basedir = basedir
  | [], _ => by simp [mrbayesBlock]
  | f :: fs, n => by
    simp only [mrbayesBlock, List.mem_cons]
    rintro t (rfl | rfl | ht)
    · exact ⟨Or.inl rfl, rfl⟩
    · exact ⟨Or.inr rfl, rfl⟩
    · exact mrbayesBlock_fields basedir fs (n + 2) t ht

lemma mrbayesBlock_pair (basedir : String) :
    ∀ (files : List String) (n : Nat), ∀ f ∈ files,
      ∃ t1 t2, t1 ∈ mrbayesBlock basedir files n ∧
        t2 ∈ mrbayesBlock basedir files n ∧
        t1.app = "mrbayes" ∧ t1.file = some f ∧ t1.deps = [] ∧
        t2.app = "mbsum" ∧ t2.file = some f ∧ t2.deps = [t1.id]
  | [], _ => by simp
  | g :: fs, n => by
    intro f hf
    rcases List.mem_cons.mp hf with rfl | hf
    · exact ⟨⟨n, "mrbayes", basedir, some f, []⟩,
        ⟨n + 1, "mbsum", basedir, some f, [n]⟩,
        by simp [mrbayesBlock], by simp [mrbayesBlock], rfl, rfl, rfl, rfl, rfl, rfl⟩
    · obtain ⟨t1, t2, h1, h2, hrest⟩ := mrbayesBlock_pair basedir fs (n + 2) f hf
      exact ⟨t1, t2, by simp [mrbayesBlock, h1], by simp [mrbayesBlock, h2], hrest⟩

lemma mrbayesBlock_mbsum_id (basedir : String) :
    ∀ (files : List String) (n : Nat), ∀ t ∈ mrbayesBlock basedir files n,
      t.app = "mbsum" → t.id ∈ List.range' (n + 1) files.length 2
  | [], _ => by simp [mrbayesBlock]
  | f :: fs, n => by
    simp only [mrbayesBlock, List.mem_cons]
    rintro t (rfl | rfl | ht) happ
    · simp at happ
    · simp [List.range'_succ]
    · have := mrbayesBlock_mbsum_id basedir fs (n + 2) t ht happ
      simp only [List.length_cons, List.range'_succ, List.mem_cons]
      right
      simpa [Nat.add_assoc] using this

lemma buckyBlock_fields (basedir : String) (pre : Nat) :
    ∀ (cs : List Char) (n : Nat), ∀ t ∈ buckyBlock basedir pre cs n,
      t.app = "bucky" ∧ t.basedir = basedir ∧ t.deps = [pre]
  | [], _ => by simp [buckyBlock]
  | c :: cs, n => by
    simp only [buckyBlock, List.mem_cons]
    rintro t (rfl | ht)
    · exact ⟨rfl, rfl, rfl⟩
    · exact buckyBlock_fields basedir pre cs (n + 1) t ht

lemma mlBlock_filter_self (app basedir : String) (files : List String)
    (n : Nat) :
    (mlBlock app basedir files n).filter (fun u => u.app = app) =
      mlBlock app basedir files n := by
  rw [List.filter_eq_self]
  intro t ht
  simp [(mlBlock_fields app basedir files n t ht).1]

lemma mlBlock_filter_not (app basedir name : String) (files : List String)
    (n : Nat) (h : name ≠ app) :
    (mlBlock app basedir files n).filter (fun u => u.app = name) = [] := by
  rw [List.filter_eq_nil_iff]
  intro t ht
  simp only [(mlBlock_fields app basedir files n t ht).1]
  simp [Ne.symm h]

/-! ## The setup loop over the whole workload -/

/-- The block of `create_folders` tasks the setup loop submits when
`convert_to_phylip` stays `True`: one per dataset root. -/
def cfBlock : List String → Nat → List Task
  | [], _ => []
  | d :: ds, n => ⟨n, "create_folders", d, none, []⟩ :: cfBlock ds (n + 1)

lemma cfBlock_fields : ∀ (ws : List String) (n : Nat), ∀ t ∈ cfBlock ws n,
    t.app = "create_folders" ∧ t.deps = []
  | [], _ => by simp [cfBlock]
  | d :: ds, n => by
    simp only [cfBlock, List.mem_cons]
    rintro t (rfl | ht)
    · exact ⟨rfl, rfl⟩
    · exact cfBlock_fields ds (n + 1) t ht

lemma loop1_conv_true (cfg : Config) (h : convert_to_phylip cfg = true) :
    ∀ (ws : List String) (st : St),
    loop1 cfg ws st =
      ({ next := st.next + ws.length
         tasks := st.tasks ++ cfBlock ws st.next
         trace := st.trace ++ (cfBlock ws st.next).map Event.submit },
       Except.ok (List.range' st.next ws.length))
  | [], st => by simp [loop1, cfBlock]
  | d :: ds, st => by
    simp only [loop1, setupStage_conv_true cfg d st h, loop1_conv_true cfg h ds]
    simp [cfBlock, List.range'_succ]
    omega

lemma cfBlock_map_id : ∀ (ws : List String) (n : Nat),
    (cfBlock ws n).map Task.id = List.range' n ws.length
  | [], _ => by simp [cfBlock]
  | d :: ds, n => by
    simp [cfBlock, List.range'_succ, cfBlock_map_id ds (n + 1)]

lemma cfBlock_setup_forall2 : ∀ (ws : List String) (n : Nat),
    List.Forall₂ (fun d e => ∃ t : Task, e = Event.submit t ∧
        t.app = "create_folders" ∧ t.basedir = d)
      ws ((cfBlock ws n).map Event.submit)
  | [], _ => by
    simp only [cfBlock, List.map_nil]
    exact List.Forall₂.nil
  | d :: ds, n => by
    simp only [cfBlock, List.map_cons]
    exact List.Forall₂.cons ⟨⟨n, "create_folders", d, none, []⟩, rfl, rfl, rfl⟩
      (cfBlock_setup_forall2 ds (n + 1))

lemma forall2_submit_map_id : ∀ (l : List Task),
    List.Forall₂ (fun e i => ∃ t : Task, e = Event.submit t ∧ t.id = i)
      (l.map Event.submit) (l.map Task.id)
  | [] => by
    simp only [List.map_nil]
    exact List.Forall₂.nil
  | t :: ts => by
    simp only [List.map_cons]
    exact List.Forall₂.cons ⟨t, rfl, rfl⟩ (forall2_submit_map_id ts)

/-- One dataset's stage-2 trace segment under ML-RAXML + MP: the per-file
tree fan-out submissions, then a blocking `wait_for_all` over exactly the
futures of those tree tasks, then the network chain
`setup_phylonet_data → phylonet → clear_temporary_files` (the conversion
task depending on the tree futures, each later task on its predecessor);
`cleanupId` is the future id of the cleanup task. -/
def DatasetSegment (d : String) (seg : List Event) (cleanupId : Nat) : Prop :=
  ∃ (treeTasks : List Task) (spd phy clr : Task),
    seg = treeTasks.map Event.submit ++
      Event.waitAll (treeTasks.map Task.id) ::
        [Event.submit spd, Event.submit phy, Event.submit clr] ∧
    (∀ t ∈ treeTasks, t.basedir = d ∧ t.app = "raxml" ∧ t.deps = []) ∧
    spd.basedir = d ∧ spd.app = "setup_phylonet_data" ∧
    spd.deps = treeTasks.map Task.id ∧
    phy.basedir = d ∧ phy.app = "phylonet" ∧ phy.deps = [spd.id] ∧
    clr.basedir = d ∧ clr.app = "clear_temporary_files" ∧
    clr.deps = [phy.id] ∧ clr.id = cleanupId

/-- `buildDataset` under ML-RAXML + MP appends exactly one
`DatasetSegment` to the trace and returns the cleanup future. -/
lemma buildDataset_ml_mp_spec (cfg : Config) (d : String)
    (files : List String) (st : St) (ht : cfg.tree_method = "ML-RAXML")
    (hn : cfg.network_method = "MP") :
    ∃ (st1 : St) (seg : List Event) (c : Nat) (extraD : List Task),
      buildDataset cfg d files st = (st1, Except.ok (some c)) ∧
      st1.tasks = st.tasks ++ extraD ∧
      st1.trace = st.trace ++ seg ∧
      DatasetSegment d seg c ∧
      (∃ t ∈ extraD, t.id = c ∧ t.app = "clear_temporary_files") := by
  have happ : mlApp cfg = "raxml" := by simp [mlApp, ht]
  refine ⟨_,
    (mlBlock (mlApp cfg) d files st.next).map Event.submit ++
      Event.waitAll (List.range' st.next files.length) ::
        [Event.submit (⟨st.next + files.length, "setup_phylonet_data", d,
           none, List.range' st.next files.length⟩ : Task),
         Event.submit (⟨st.next + files.length + 1, "phylonet", d, none,
           [st.next + files.length]⟩ : Task),
         Event.submit (⟨st.next + files.length + 2, "clear_temporary_files",
           d, none, [st.next + files.length + 1]⟩ : Task)],
    st.next + files.length + 2,
    mlBlock (mlApp cfg) d files st.next ++
      [(⟨st.next + files.length, "setup_phylonet_data", d, none,
        List.range' st.next files.length⟩ : Task),
       (⟨st.next + files.length + 1, "phylonet", d, none,
        [st.next + files.length]⟩ : Task),
       (⟨st.next + files.length + 2, "clear_temporary_files", d, none,
        [st.next + files.length + 1]⟩ : Task)],
    buildDataset_ml_mp_eq cfg d files st (Or.inl ht) hn, ?_, ?_, ?_, ?_⟩
  · simp [List.append_assoc]
  · simp [List.append_assoc]
  · refine ⟨mlBlock (mlApp cfg) d files st.next, _, _, _,
      by rw [mlBlock_map_id], ?_, rfl, rfl,
      (mlBlock_map_id (mlApp cfg) d files st.next).symm,
      rfl, rfl, rfl, rfl, rfl, rfl, rfl⟩
    intro t htt
    exact ⟨(mlBlock_fields _ _ _ _ t htt).2.1,
      (mlBlock_fields _ _ _ _ t htt).1.trans happ,
      (mlBlock_fields _ _ _ _ t htt).2.2⟩
  · exact ⟨⟨st.next + files.length + 2, "clear_temporary_files", d, none,
      [st.next + files.length + 1]⟩, by simp, rfl, rfl⟩

/-- The second loop under ML-RAXML + MP processes the datasets strictly
sequentially: its trace is the concatenation, in workload order, of one
`DatasetSegment` per dataset, and it returns the cleanup futures, one per
dataset, each the future of a `clear_temporary_files` task it created. -/
lemma loop2_ml_mp_spec (cfg : Config) (glob : String → List String)
    (ht : cfg.tree_method = "ML-RAXML") (hn : cfg.network_method = "MP") :
    ∀ (ws : List String) (st : St),
    ∃ (st' : St) (segcs : List (List Event × Nat)) (extra : List Task),
      loop2 cfg glob ws st = (st', Except.ok (segcs.map Prod.snd)) ∧
      st'.trace = st.trace ++ (segcs.map Prod.fst).flatten ∧
      st'.tasks = st.tasks ++ extra ∧
      (∀ c ∈ segcs.map Prod.snd, ∃ t ∈ extra,
        t.id = c ∧ t.app = "clear_temporary_files") ∧
      List.Forall₂ (fun d sc => DatasetSegment d sc.1 sc.2) ws segcs
  | [], st =>
    ⟨st, [], [], by simp [loop2], by simp, by simp, by simp,
      List.Forall₂.nil⟩
  | d :: ds, st => by
    obtain ⟨st1, seg, c, extraD, hbd, htk1, htr1, hseg, hclr⟩ :=
      buildDataset_ml_mp_spec cfg d (datalistOf glob cfg d) st ht hn
    obtain ⟨st', segcs, extra, h1, h2, h3, h4, h5⟩ :=
      loop2_ml_mp_spec cfg glob ht hn ds st1
    refine ⟨st', (seg, c) :: segcs, extraD ++ extra, ?_, ?_, ?_, ?_, ?_⟩
    · simp only [loop2, hbd, h1]
      simp
    · rw [h2, htr1]
      simp [List.append_assoc]
    · rw [h3, htk1]
      simp [List.append_assoc]
    · intro c' hc'
      simp only [List.map_cons] at hc'
      rcases List.mem_cons.mp hc' with rfl | hc'
      · obtain ⟨t, htm, hrest⟩ := hclr
        exact ⟨t, List.mem_append.mpr (Or.inl htm), hrest⟩
      · obtain ⟨t, htm, hrest⟩ := h4 c' hc'
        exact ⟨t, List.mem_append.mpr (Or.inr htm), hrest⟩
    · exact List.Forall₂.cons hseg h5

/-! ## Concrete run configurations used as explicit inputs -/

/-- A glob function returning a single file path (the pattern itself). -/
def glob1 : String → List String := fun p => [p]

/-- ML-RAxML tree inference with the MPL (pseudo-likelihood) network
method, a two-dataset workload. -/
def cfgML_MPL : Config :=
  { tree_method := "ML-RAXML", network_method := "MPL",
    workload := ["d1", "d2"], raxml_threads := 4, raxml := "raxmlHPC",
    raxml_exec_param := "-m GTRGAMMA", raxml_dir := "raxml" }

/-- ML-RAxML tree inference with the MP (parsimony) network method. -/
def cfgML_MP : Config := { cfgML_MPL with network_method := "MP" }

/-- A configuration whose tree and network methods match none of the
enumerated values. -/
def cfgBad : Config :=
  { cfgML_MPL with
    tree_method := "FOO"
    network_method := "BAR"
    workload := ["d"] }

/-- Bayesian (Mr. Bayes) tree inference with the MP network method. -/
def cfgBI : Config :=
  { cfgML_MPL with
    tree_method := "BI_MRBAYES"
    network_method := "MP"
    workload := ["d"] }

/-! ## Claim theorems -/

/-- C1: for ML-RAXML + MPL with 3 input files, the spec claims the graph
has 3 independent fan-out tasks followed by a `setup_tree_output` fan-in
over the 3 per-file futures, 2 network tasks and a cleanup task.  The code
instead creates only the 3 independent `raxml` tasks (each with an empty
dependency set): `setup_tree_output` sits in the `else` arm of the
tree-method chain, so it is never created for an ML method, and the MPL
branch then raises `UnboundLocalError` on `ret_sad` at the `astral` call.
This theorem evaluates the embedded builder at that failing input. -/
theorem C1_ml_fanin_never_created :
    (buildDataset cfgML_MPL "d1" ["a.phy", "b.phy", "c.phy"] st0).2 =
      Except.error (PyError.unboundLocal "ret_sad") ∧
    ((buildDataset cfgML_MPL "d1" ["a.phy", "b.phy", "c.phy"] st0).1.tasks.map
        Task.app) = ["raxml", "raxml", "raxml"] ∧
    (∀ t ∈ (buildDataset cfgML_MPL "d1" ["a.phy", "b.phy", "c.phy"] st0).1.tasks,
      t.deps = []) ∧
    (∀ t ∈ (buildDataset cfgML_MPL "d1" ["a.phy", "b.phy", "c.phy"] st0).1.tasks,
      t.app ≠ "setup_tree_output" ∧ t.app ≠ "clear_temporary_files") := by
  decide

/-- C2 counterexample: with `tree_method = "FOO"` and
`network_method = "BAR"` (neither in the enumerated sets), the claim says
graph construction raises a `GraphConfigurationError` before any task is
submitted.  The code instead finishes without raising anything and submits
tasks: the unrecognized tree method falls into the `else` arm (creating a
`setup_tree_output` task) and the unrecognized network method is silently
skipped. -/
theorem C2_counterexample_silent_skip :
    (runMain cfgBad glob1).2 = Except.ok () ∧
    (runMain cfgBad glob1).1.tasks ≠ [] ∧
    (∀ t ∈ (runMain cfgBad glob1).1.tasks,
      t.app = "create_folders" ∨ t.app = "setup_tree_output") := by
  decide

/-- C2 amended: when `tree_method` matches none of ML-RAXML / ML-IQTREE /
BI_MRBAYES and `network_method` matches neither MPL nor MP, graph
construction raises no error at all: the tree-method `else` arm creates a
`setup_tree_output` task (over an empty dependency list) and the network
and cleanup stages are silently skipped.  No `GraphConfigurationError`
exists anywhere in the code. -/
theorem C2_amended_unrecognized_methods_silently_skipped (cfg : Config)
    (basedir : String) (files : List String) (st : St)
    (h1 : cfg.tree_method ≠ "ML-RAXML") (h2 : cfg.tree_method ≠ "ML-IQTREE")
    (h3 : cfg.tree_method ≠ "BI_MRBAYES") (h4 : cfg.network_method ≠ "MPL")
    (h5 : cfg.network_method ≠ "MP") :
    buildDataset cfg basedir files st =
      ({ next := st.next + 1
         tasks := st.tasks ++ [⟨st.next, "setup_tree_output", basedir, none, []⟩]
         trace := st.trace ++
           [Event.submit ⟨st.next, "setup_tree_output", basedir, none, []⟩] },
       Except.ok none) :=
  buildDataset_else_other_eq cfg basedir files st h1 h2 h3 h4 h5

/-- Witness for C2's amended theorem at `cfgBad`. -/
theorem C2_amended_witness :
    buildDataset cfgBad "d" ["x.phy"] st0 =
      ({ next := 1
         tasks := [⟨0, "setup_tree_output", "d", none, []⟩]
         trace := [Event.submit ⟨0, "setup_tree_output", "d", none, []⟩] },
       Except.ok none) :=
  C2_amended_unrecognized_methods_silently_skipped cfgBad "d" ["x.phy"] st0
    (by decide) (by decide) (by decide) (by decide) (by decide)

/-- C8: the `setup_phylip_data` task is created for a dataset if and only
if `tree_method = "BI_MRBAYES"` and `network_method ≠ "MPL"`: the
`convert_to_phylip` flag is cleared exactly in the
`elif tree_method == "BI_MRBAYES"` arm, which is reachable only when the
`if network_method == "MPL"` test failed, and `setup_phylip_data` is
submitted exactly when the flag is `False`.  In particular it is never
created for ML-RAXML or ML-IQTREE. -/
theorem C8_setup_phylip_data_iff (cfg : Config) (basedir : String) :
    (∃ t ∈ (setupStage cfg basedir st0).1.tasks, t.app = "setup_phylip_data") ↔
      (cfg.tree_method = "BI_MRBAYES" ∧ cfg.network_method ≠ "MPL") := by
  by_cases hn : cfg.network_method = "MPL" <;>
    by_cases ht : cfg.tree_method = "BI_MRBAYES"
  · rw [setupStage_conv_true cfg basedir st0 (by simp [convert_to_phylip, hn])]
    simp [st0, hn]
  · rw [setupStage_conv_true cfg basedir st0 (by simp [convert_to_phylip, hn])]
    simp [st0, hn]
  · rw [setupStage_conv_false cfg basedir st0 (by simp [convert_to_phylip, hn, ht])]
    simp [st0, hn, ht]
  · rw [setupStage_conv_true cfg basedir st0 (by simp [convert_to_phylip, hn, ht])]
    simp [st0, ht]

/-- C10: the `raxml` app is not deterministic in `(basedir, config,
input_file)`: the `-p`/`-x` seeds are fresh `random.randint(1, 10000)`
draws, and two valid draws yield different command strings. -/
theorem C10_raxml_command_nondeterministic (basedir : String)
    (config : Config) (input_file : String) :
    ∃ p1 x1 p2 x2 : Nat,
      1 ≤ p1 ∧ p1 ≤ 10000 ∧ 1 ≤ x1 ∧ x1 ≤ 10000 ∧
      1 ≤ p2 ∧ p2 ≤ 10000 ∧ 1 ≤ x2 ∧ x2 ≤ 10000 ∧
      raxmlCmd basedir config input_file p1 x1 ≠
        raxmlCmd basedir config input_file p2 x2 := by
  refine ⟨1, 1, 2, 1, by norm_num, by norm_num, by norm_num, by norm_num,
    by norm_num, by norm_num, by norm_num, by norm_num, ?_⟩
  intro h
  have h2 := congrArg String.data h
  simp only [raxmlCmd, String.data_append] at h2
  simp at h2
  exact absurd h2 (by decide)

/-- C9: for `tree_method = "BI_MRBAYES"`, graph construction raises
`AttributeError` when it reaches the quartet stage: the `apps` module
defines `setup_qmc_data`, `quartet_maxcut` and `setup_qmc_output` but no
`setup_qmc`, which `main` looks up; consequently the `quartet_maxcut` task
is never created on this path. -/
theorem C9_setup_qmc_attribute_error (cfg : Config) (basedir : String)
    (files : List String) (h : cfg.tree_method = "BI_MRBAYES") :
    (buildDataset cfg basedir files st0).2 =
      Except.error (PyError.attributeError "apps" "setup_qmc") ∧
    ∀ t ∈ (buildDataset cfg basedir files st0).1.tasks,
      t.app ≠ "quartet_maxcut" := by
  rw [buildDataset_bi_eq cfg basedir files st0 h, mrbayesTail_eq]
  refine ⟨rfl, ?_⟩
  intro t ht
  simp only [waitAll, st0, List.nil_append, List.mem_append, List.mem_cons] at ht
  rcases ht with ht | rfl | ht | rfl | rfl | ht
  · rcases (mrbayesBlock_fields basedir files 0 t ht).1 with h1 | h1 <;> simp [h1]
  · simp
  · simp [(buckyBlock_fields basedir _ _ _ t ht).1]
  · simp
  · simp
  · simp at ht

/-- Witness for C9 at a concrete Bayesian configuration. -/
theorem C9_witness :
    (buildDataset cfgBI "d" ["g.nex"] st0).2 =
      Except.error (PyError.attributeError "apps" "setup_qmc") ∧
    ∀ t ∈ (buildDataset cfgBI "d" ["g.nex"] st0).1.tasks,
      t.app ≠ "quartet_maxcut" :=
  C9_setup_qmc_attribute_error cfgBI "d" ["g.nex"] rfl

/-- C3 counterexample: with the two-dataset workload `["d1", "d2"]` under
ML-RAXML + MPL, the build failure of dataset `d1` (the `ret_sad`
`UnboundLocalError`) propagates out of the per-dataset loop: the run
aborts, and dataset `d2`'s tree/network graph is never constructed (only
its setup-stage `create_folders` task exists).  This falsifies "every
dataset in the batch is still processed". -/
theorem C3_counterexample_failure_stops_batch :
    "d2" ∈ cfgML_MPL.workload ∧
    (runMain cfgML_MPL glob1).2 =
      Except.error (PyError.unboundLocal "ret_sad") ∧
    (∀ t ∈ (runMain cfgML_MPL glob1).1.tasks,
      t.basedir = "d2" → t.app = "create_folders") := by
  decide

/-- C3 amended: a failure while constructing one dataset's graph is *not*
isolated: the exception propagates out of the orchestrator loop, so the
graphs of *all* later datasets in the batch (every dataset root other than
the failing first one) are never constructed — after the abort, the only
tasks such a dataset has are the setup-stage `create_folders` tasks of the
first loop. -/
theorem C3_amended_build_failure_aborts_batch (cfg : Config)
    (glob : String → List String) (d1 : String) (rest : List String)
    (hW : cfg.workload = d1 :: rest)
    (ht : cfg.tree_method = "ML-RAXML") (hn : cfg.network_method = "MPL") :
    (runMain cfg glob).2 = Except.error (PyError.unboundLocal "ret_sad") ∧
    ∀ d ∈ rest, d ≠ d1 →
      ∀ t ∈ (runMain cfg glob).1.tasks,
        t.basedir = d → t.app = "create_folders" := by
  have hconv : convert_to_phylip cfg = true := by
    simp [convert_to_phylip, hn]
  simp only [runMain, hW, loop1_conv_true cfg hconv, loop2,
    buildDataset_ml_mpl_eq cfg d1 (datalistOf glob cfg d1) _ (Or.inl ht) hn]
  refine ⟨trivial, ?_⟩
  intro d _ hne t ht2 hb
  simp only [waitAll, st0, List.nil_append, List.mem_append] at ht2
  rcases ht2 with ht2 | ht2
  · exact (cfBlock_fields (d1 :: rest) 0 t ht2).1
  · exact absurd (hb ▸ (mlBlock_fields (mlApp cfg) d1 _ _ t ht2).2.1)
      (by simpa using hne)

/-- Witness for C3's amended theorem at the concrete two-dataset
configuration. -/
theorem C3_amended_witness :
    (runMain cfgML_MPL glob1).2 =
      Except.error (PyError.unboundLocal "ret_sad") ∧
    ∀ d ∈ (["d2"] : List String), d ≠ "d1" →
      ∀ t ∈ (runMain cfgML_MPL glob1).1.tasks,
        t.basedir = d → t.app = "create_folders" :=
  C3_amended_build_failure_aborts_batch cfgML_MPL glob1 "d1" ["d2"] rfl rfl
    rfl

/-- C5 counterexample: under ML-RAXML + MP with two input files, the
network-inference subgraph is *not* attached downstream of a fan-in
aggregation future: no `setup_tree_output` task exists at all, and
`setup_phylonet_data` depends directly on the two per-file `raxml`
futures. -/
theorem C5_counterexample_mp_attaches_to_per_file_futures :
    ((buildDataset cfgML_MP "d1" ["f1", "f2"] st0).1.tasks.map Task.app) =
      ["raxml", "raxml", "setup_phylonet_data", "phylonet",
       "clear_temporary_files"] ∧
    (∀ t ∈ (buildDataset cfgML_MP "d1" ["f1", "f2"] st0).1.tasks,
      t.app = "setup_phylonet_data" → t.deps = [0, 1]) ∧
    (∀ t ∈ (buildDataset cfgML_MP "d1" ["f1", "f2"] st0).1.tasks,
      t.id = 0 → (t.app = "raxml" ∧ t.file = some "f1")) ∧
    (∀ t ∈ (buildDataset cfgML_MP "d1" ["f1", "f2"] st0).1.tasks,
      t.id = 1 → (t.app = "raxml" ∧ t.file = some "f2")) ∧
    (∀ t ∈ (buildDataset cfgML_MP "d1" ["f1", "f2"] st0).1.tasks,
      t.app ≠ "setup_tree_output") := by
  decide

/-- C7 counterexample: MPL is a recognized network method, yet for
ML-RAXML + MPL graph construction crashes before the network branch and
the graph contains no `clear_temporary_files` task at all. -/
theorem C7_counterexample_no_cleanup_under_mpl :
    cfgML_MPL.network_method = "MPL" ∧
    (buildDataset cfgML_MPL "d1" ["f1"] st0).2 =
      Except.error (PyError.unboundLocal "ret_sad") ∧
    (∀ t ∈ (buildDataset cfgML_MPL "d1" ["f1"] st0).1.tasks,
      t.app ≠ "clear_temporary_files") := by
  decide

/-- C5 amended: the network subgraph is not attached to a fan-in
aggregation future for the ML tree methods.  Under MP,
`setup_phylonet_data` depends *directly* on the per-file tree futures (one
per input file) and `phylonet` depends on it, while no `setup_tree_output`
task exists; under MPL, graph construction fails with the `ret_sad`
`UnboundLocalError` (the aggregation future the chain would attach to is
only ever assigned in the unrecognized-tree-method `else` arm). -/
theorem C5_amended_network_attachment (cfg : Config) (basedir : String)
    (files : List String)
    (h1 : cfg.tree_method = "ML-RAXML" ∨ cfg.tree_method = "ML-IQTREE") :
    (cfg.network_method = "MP" →
      ∃ c, (buildDataset cfg basedir files st0).2 = Except.ok (some c) ∧
        ∃ tspd tphy,
          tspd ∈ (buildDataset cfg basedir files st0).1.tasks ∧
          tphy ∈ (buildDataset cfg basedir files st0).1.tasks ∧
          tspd.app = "setup_phylonet_data" ∧ tphy.app = "phylonet" ∧
          tspd.deps =
            (((buildDataset cfg basedir files st0).1.tasks.filter
                (fun u => u.app = mlApp cfg)).map Task.id) ∧
          tspd.deps.length = files.length ∧
          tphy.deps = [tspd.id] ∧
          (∀ f ∈ files, ∃ u ∈ (buildDataset cfg basedir files st0).1.tasks,
            u.app = mlApp cfg ∧ u.file = some f ∧ u.id ∈ tspd.deps) ∧
          ∀ u ∈ (buildDataset cfg basedir files st0).1.tasks,
            u.app ≠ "setup_tree_output") ∧
    (cfg.network_method = "MPL" →
      (buildDataset cfg basedir files st0).2 =
        Except.error (PyError.unboundLocal "ret_sad")) := by
  constructor
  · intro h2
    rw [buildDataset_ml_mp_eq cfg basedir files st0 h1 h2]
    simp only [st0, Nat.zero_add, List.nil_append]
    refine ⟨files.length + 2, rfl,
      (⟨files.length, "setup_phylonet_data", basedir, none,
        List.range' 0 files.length⟩ : Task),
      (⟨files.length + 1, "phylonet", basedir, none, [files.length]⟩ : Task),
      by simp, by simp, rfl, rfl, ?_, by simp, rfl, ?_, ?_⟩
    · have hfilter :
          (mlBlock (mlApp cfg) basedir files 0 ++
            [(⟨files.length, "setup_phylonet_data", basedir, none,
              List.range' 0 files.length⟩ : Task),
             (⟨files.length + 1, "phylonet", basedir, none,
              [files.length]⟩ : Task),
             (⟨files.length + 2, "clear_temporary_files", basedir, none,
              [files.length + 1]⟩ : Task)]).filter (fun u => u.app = mlApp cfg) =
            mlBlock (mlApp cfg) basedir files 0 := by
        rw [List.filter_append, mlBlock_filter_self]
        rcases h1 with h | h <;> simp [mlApp, h]
      rw [hfilter, mlBlock_map_id]
    · intro f hf
      obtain ⟨u, hu, hufile⟩ := mlBlock_file (mlApp cfg) basedir files 0 f hf
      refine ⟨u, by simp [hu], (mlBlock_fields _ _ _ _ u hu).1, hufile, ?_⟩
      rw [← mlBlock_map_id (mlApp cfg) basedir files 0]
      exact List.mem_map_of_mem Task.id hu
    · intro u hu
      rcases List.mem_append.mp hu with hu | hu
      · rcases h1 with h | h <;>
          · have := (mlBlock_fields (mlApp cfg) basedir files 0 u hu).1
            simp only [this, mlApp, h]
            decide
      · rcases List.mem_cons.mp hu with rfl | hu
        · simp
        · rcases List.mem_cons.mp hu with rfl | hu
          · simp
          · rcases List.mem_cons.mp hu with rfl | hu
            · simp
            · simp at hu
  · intro h2
    rw [buildDataset_ml_mpl_eq cfg basedir files st0 h1 h2]

/-- Witness for C5's amended theorem at ML-RAXML + MP with two files. -/
theorem C5_amended_witness :
    (cfgML_MP.network_method = "MP" →
      ∃ c, (buildDataset cfgML_MP "d1" ["f1", "f2"] st0).2 = Except.ok (some c) ∧
        ∃ tspd tphy,
          tspd ∈ (buildDataset cfgML_MP "d1" ["f1", "f2"] st0).1.tasks ∧
          tphy ∈ (buildDataset cfgML_MP "d1" ["f1", "f2"] st0).1.tasks ∧
          tspd.app = "setup_phylonet_data" ∧ tphy.app = "phylonet" ∧
          tspd.deps =
            (((buildDataset cfgML_MP "d1" ["f1", "f2"] st0).1.tasks.filter
                (fun u => u.app = mlApp cfgML_MP)).map Task.id) ∧
          tspd.deps.length = (["f1", "f2"] : List String).length ∧
          tphy.deps = [tspd.id] ∧
          (∀ f ∈ (["f1", "f2"] : List String),
            ∃ u ∈ (buildDataset cfgML_MP "d1" ["f1", "f2"] st0).1.tasks,
              u.app = mlApp cfgML_MP ∧ u.file = some f ∧ u.id ∈ tspd.deps) ∧
          ∀ u ∈ (buildDataset cfgML_MP "d1" ["f1", "f2"] st0).1.tasks,
            u.app ≠ "setup_tree_output") ∧
    (cfgML_MP.network_method = "MPL" →
      (buildDataset cfgML_MP "d1" ["f1", "f2"] st0).2 =
        Except.error (PyError.unboundLocal "ret_sad")) :=
  C5_amended_network_attachment cfgML_MP "d1" ["f1", "f2"] (Or.inl rfl)

/-- C7 amended: *when graph construction completes without an exception*
(it crashes for ML + MPL and for BI_MRBAYES), a recognized network method
yields exactly one `clear_temporary_files` task, and its dependency set is
exactly the terminal future of the selected network branch (`snaq` under
MPL, `phylonet` under MP). -/
theorem C7_amended_cleanup_when_build_completes (cfg : Config)
    (basedir : String) (files : List String)
    (hnet : cfg.network_method = "MPL" ∨ cfg.network_method = "MP")
    (hok : ∃ r, (buildDataset cfg basedir files st0).2 = Except.ok r) :
    ∃ c term,
      ((buildDataset cfg basedir files st0).1.tasks.filter
        (fun t => t.app = "clear_temporary_files")) = [c] ∧
      term ∈ (buildDataset cfg basedir files st0).1.tasks ∧
      term.app = (if cfg.network_method = "MPL" then "snaq" else "phylonet") ∧
      c.deps = [term.id] := by
  obtain ⟨r, hr⟩ := hok
  by_cases t3 : cfg.tree_method = "BI_MRBAYES"
  · rw [buildDataset_bi_eq cfg basedir files st0 t3] at hr
    simp at hr
  by_cases tml : cfg.tree_method = "ML-RAXML" ∨ cfg.tree_method = "ML-IQTREE"
  · rcases hnet with hn | hn
    · rw [buildDataset_ml_mpl_eq cfg basedir files st0 tml hn] at hr
      simp at hr
    · rw [buildDataset_ml_mp_eq cfg basedir files st0 tml hn]
      simp only [st0, Nat.zero_add, List.nil_append]
      refine ⟨(⟨files.length + 2, "clear_temporary_files", basedir, none,
          [files.length + 1]⟩ : Task),
        (⟨files.length + 1, "phylonet", basedir, none,
          [files.length]⟩ : Task), ?_, by simp, by simp [hn], rfl⟩
      rw [List.filter_append,
        mlBlock_filter_not (mlApp cfg) basedir "clear_temporary_files" files 0
          (by rcases tml with h | h <;> simp [mlApp, h])]
      simp
  · push_neg at tml
    rcases hnet with hn | hn
    · rw [buildDataset_else_mpl_eq cfg basedir files st0 tml.1 tml.2 t3 hn]
      simp only [st0, Nat.zero_add, List.nil_append]
      refine ⟨(⟨3, "clear_temporary_files", basedir, none, [2]⟩ : Task),
        (⟨2, "snaq", basedir, none, [1]⟩ : Task), by simp, by simp,
        by simp [hn], rfl⟩
    · rw [buildDataset_else_mp_eq cfg basedir files st0 tml.1 tml.2 t3 hn]
      simp only [st0, Nat.zero_add, List.nil_append]
      refine ⟨(⟨3, "clear_temporary_files", basedir, none, [2]⟩ : Task),
        (⟨2, "phylonet", basedir, none, [1]⟩ : Task), by simp, by simp,
        by simp [hn], rfl⟩

/-- Witness for C7's amended theorem at ML-RAXML + MP with one file. -/
theorem C7_amended_witness :
    ∃ c term,
      ((buildDataset cfgML_MP "d1" ["f1"] st0).1.tasks.filter
        (fun t => t.app = "clear_temporary_files")) = [c] ∧
      term ∈ (buildDataset cfgML_MP "d1" ["f1"] st0).1.tasks ∧
      term.app =
        (if cfgML_MP.network_method = "MPL" then "snaq" else "phylonet") ∧
      c.deps = [term.id] :=
  C7_amended_cleanup_when_build_completes cfgML_MP "d1" ["f1"]
    (Or.inr rfl) ⟨some 3, by decide⟩

/-- C6: under `tree_method = "BI_MRBAYES"`, the graph contains, per input
file, a `mrbayes` sampling task and a `mbsum` summarization task whose
dependency set is exactly the sampling task's future; the orchestrator
barrier (`wait_for_all(ret_mbsum)`) covers every `mbsum` future and
occurs in the trace strictly before the fan-in task `setup_bucky_data`,
whose dependency set likewise contains every `mbsum` future; and no
`mrbayes`/`mbsum` submission occurs after that barrier. -/
theorem C6_bi_per_file_sampling_summarization (cfg : Config)
    (basedir : String) (files : List String)
    (h : cfg.tree_method = "BI_MRBAYES") :
    (∀ f ∈ files,
      ∃ t1 t2, t1 ∈ (buildDataset cfg basedir files st0).1.tasks ∧
        t2 ∈ (buildDataset cfg basedir files st0).1.tasks ∧
        t1.app = "mrbayes" ∧ t1.file = some f ∧ t1.deps = [] ∧
        t2.app = "mbsum" ∧ t2.file = some f ∧ t2.deps = [t1.id]) ∧
    ∃ ids pre post,
      (buildDataset cfg basedir files st0).1.trace =
        pre ++ Event.waitAll ids :: post ∧
      (∀ t ∈ (buildDataset cfg basedir files st0).1.tasks,
        t.app = "mbsum" → t.id ∈ ids) ∧
      (∀ t : Task, Event.submit t ∈ post →
        t.app ≠ "mrbayes" ∧ t.app ≠ "mbsum") ∧
      (∃ tb, Event.submit tb ∈ post ∧ tb.app = "setup_bucky_data" ∧
        tb.deps = ids) := by
  rw [buildDataset_bi_eq cfg basedir files st0 h, mrbayesTail_eq]
  simp only [waitAll, st0, List.nil_append, Nat.zero_add]
  constructor
  · intro f hf
    obtain ⟨t1, t2, h1, h2, hrest⟩ := mrbayesBlock_pair basedir files 0 f hf
    exact ⟨t1, t2, by simp [h1], by simp [h2], hrest⟩
  refine ⟨List.range' 1 files.length 2,
    (mrbayesBlock basedir files 0).map Event.submit,
    Event.submit (⟨2 * files.length, "setup_bucky_data", basedir, none,
        List.range' 1 files.length 2⟩ : Task) ::
      ((buckyBlock basedir (2 * files.length) (pyJoin basedir "bucky").data
          (2 * files.length + 1)).map Event.submit ++
        [Event.waitAll (List.range' (2 * files.length + 1)
            (pyJoin basedir "bucky").data.length),
         Event.submit (⟨2 * files.length + 1 +
             (pyJoin basedir "bucky").data.length, "setup_bucky_output",
             basedir, none,
             List.range' (2 * files.length + 1)
               (pyJoin basedir "bucky").data.length⟩ : Task),
         Event.submit (⟨2 * files.length + 2 +
             (pyJoin basedir "bucky").data.length, "setup_qmc_data",
             basedir, none,
             [2 * files.length + 1 +
               (pyJoin basedir "bucky").data.length]⟩ : Task)]),
    ?_, ?_, ?_, ?_⟩
  · simp [List.append_assoc]
  · intro t ht happ
    simp only [List.mem_append, List.mem_cons] at ht
    rcases ht with ht | rfl | ht | rfl | rfl | ht
    · exact mrbayesBlock_mbsum_id basedir files 0 t ht happ
    · simp at happ
    · have := (buckyBlock_fields basedir _ _ _ t ht).1
      rw [this] at happ
      simp at happ
    · simp at happ
    · simp at happ
    · simp at ht
  · intro t ht
    simp only [List.mem_cons, List.mem_append] at ht
    rcases ht with ht | ht | ht
    · rw [show t = (⟨2 * files.length, "setup_bucky_data", basedir, none,
        List.range' 1 files.length 2⟩ : Task) by
          exact Event.submit.inj ht]
      constructor <;> simp
    · obtain ⟨u, hu, hut⟩ := List.mem_map.mp ht
      rw [show t = u by exact (Event.submit.inj hut).symm]
      rw [(buckyBlock_fields basedir _ _ _ u hu).1]
      constructor <;> simp
    · rcases ht with ht | ht | ht | ht
      · simp at ht
      · rw [show t = (⟨2 * files.length + 1 +
            (pyJoin basedir "bucky").data.length, "setup_bucky_output",
            basedir, none,
            List.range' (2 * files.length + 1)
              (pyJoin basedir "bucky").data.length⟩ : Task) by
            exact Event.submit.inj ht]
        constructor <;> simp
      · rw [show t = (⟨2 * files.length + 2 +
            (pyJoin basedir "bucky").data.length, "setup_qmc_data",
            basedir, none,
            [2 * files.length + 1 +
              (pyJoin basedir "bucky").data.length]⟩ : Task) by
            exact Event.submit.inj ht]
        constructor <;> simp
      · simp at ht
  · exact ⟨⟨2 * files.length, "setup_bucky_data", basedir, none,
      List.range' 1 files.length 2⟩, by simp, rfl, rfl⟩

/-- Witness for C6 at a concrete Bayesian configuration with one file. -/
theorem C6_witness :
    (∀ f ∈ (["g.nex"] : List String),
      ∃ t1 t2, t1 ∈ (buildDataset cfgBI "d" ["g.nex"] st0).1.tasks ∧
        t2 ∈ (buildDataset cfgBI "d" ["g.nex"] st0).1.tasks ∧
        t1.app = "mrbayes" ∧ t1.file = some f ∧ t1.deps = [] ∧
        t2.app = "mbsum" ∧ t2.file = some f ∧ t2.deps = [t1.id]) ∧
    ∃ ids pre post,
      (buildDataset cfgBI "d" ["g.nex"] st0).1.trace =
        pre ++ Event.waitAll ids :: post ∧
      (∀ t ∈ (buildDataset cfgBI "d" ["g.nex"] st0).1.tasks,
        t.app = "mbsum" → t.id ∈ ids) ∧
      (∀ t : Task, Event.submit t ∈ post →
        t.app ≠ "mrbayes" ∧ t.app ≠ "mbsum") ∧
      (∃ tb, Event.submit tb ∈ post ∧ tb.app = "setup_bucky_data" ∧
        tb.deps = ids) :=
  C6_bi_per_file_sampling_summarization cfgBI "d" ["g.nex"] rfl

/-- C4 counterexample: with two datasets under ML-RAXML + MP, the
orchestrator submits dataset `d1`'s *network*-stage task `phylonet` (trace
position 6) before it submits dataset `d2`'s first *tree*-stage task
`raxml` (trace position 8): a later stage for `d1` begins before the
current stage has even been submitted — let alone completed — for all
datasets in the batch. -/
theorem C4_counterexample_sequential_not_batchwide :
    (runMain cfgML_MP glob1).1.trace.get? 6 =
      some (Event.submit ⟨4, "phylonet", "d1", none, [3]⟩) ∧
    (runMain cfgML_MP glob1).1.trace.get? 8 =
      some (Event.submit ⟨6, "raxml", "d2", some "d2/input/phylip/*.phy", []⟩) ∧
    (6 : Nat) < 8 := by
  decide

/-- C4 amended: only the first (setup) stage is batch-wide — one
`create_folders` submission per dataset in workload order, then a single
barrier over exactly those setup futures.  After it the datasets are
processed strictly sequentially: the trace continues with one
`DatasetSegment` per dataset, in workload order (each segment is that
dataset's tree fan-out, a blocking wait over exactly its tree futures,
then its network chain), so every stage-2 submission of dataset i
precedes every stage-2 submission of dataset i+1.  A final `wait_for_all`
over exactly the collected cleanup futures — one `clear_temporary_files`
future per dataset — precedes return. -/
theorem C4_amended_setup_batchwide_then_sequential (cfg : Config)
    (glob : String → List String)
    (ht : cfg.tree_method = "ML-RAXML") (hn : cfg.network_method = "MP") :
    ∃ (pre : List Event) (setupIds : List Nat)
      (segcs : List (List Event × Nat)),
      (runMain cfg glob).2 = Except.ok () ∧
      (runMain cfg glob).1.trace =
        pre ++ Event.waitAll setupIds ::
          ((segcs.map Prod.fst).flatten ++
            [Event.waitAll (segcs.map Prod.snd)]) ∧
      List.Forall₂ (fun d e => ∃ t : Task, e = Event.submit t ∧
        t.app = "create_folders" ∧ t.basedir = d) cfg.workload pre ∧
      List.Forall₂ (fun e i => ∃ t : Task, e = Event.submit t ∧ t.id = i)
        pre setupIds ∧
      List.Forall₂ (fun d sc => DatasetSegment d sc.1 sc.2)
        cfg.workload segcs ∧
      ∀ c ∈ segcs.map Prod.snd,
        ∃ t ∈ (runMain cfg glob).1.tasks,
          t.id = c ∧ t.app = "clear_temporary_files" := by
  have hconv : convert_to_phylip cfg = true := by
    simp [convert_to_phylip, hn, ht]
  obtain ⟨st', segcs, extra, h1, h2, h3, h4, h5⟩ :=
    loop2_ml_mp_spec cfg glob ht hn cfg.workload
      (waitAll (List.range' st0.next cfg.workload.length)
        { next := st0.next + cfg.workload.length
          tasks := st0.tasks ++ cfBlock cfg.workload st0.next
          trace := st0.trace ++ (cfBlock cfg.workload st0.next).map
            Event.submit })
  have hrm : runMain cfg glob =
      (waitAll (segcs.map Prod.snd) st', Except.ok ()) := by
    simp only [runMain, loop1_conv_true cfg hconv, h1]
  refine ⟨(cfBlock cfg.workload st0.next).map Event.submit,
    List.range' st0.next cfg.workload.length, segcs, ?_, ?_, ?_, ?_, h5, ?_⟩
  · rw [hrm]
  · rw [hrm]
    show (waitAll (segcs.map Prod.snd) st').trace = _
    simp only [waitAll]
    rw [h2]
    simp only [waitAll, st0, List.nil_append]
    simp [List.append_assoc]
  · exact cfBlock_setup_forall2 cfg.workload st0.next
  · rw [← cfBlock_map_id cfg.workload st0.next]
    exact forall2_submit_map_id (cfBlock cfg.workload st0.next)
  · intro c hc
    obtain ⟨t, htm, hrest⟩ := h4 c hc
    refine ⟨t, ?_, hrest⟩
    rw [hrm]
    show t ∈ (waitAll (segcs.map Prod.snd) st').tasks
    simp only [waitAll]
    rw [h3]
    exact List.mem_append.mpr (Or.inr htm)

/-- Witness for C4's amended theorem at the concrete two-dataset
ML-RAXML + MP configuration. -/
theorem C4_amended_witness :
    ∃ (pre : List Event) (setupIds : List Nat)
      (segcs : List (List Event × Nat)),
      (runMain cfgML_MP glob1).2 = Except.ok () ∧
      (runMain cfgML_MP glob1).1.trace =
        pre ++ Event.waitAll setupIds ::
          ((segcs.map Prod.fst).flatten ++
            [Event.waitAll (segcs.map Prod.snd)]) ∧
      List.Forall₂ (fun d e => ∃ t : Task, e = Event.submit t ∧
        t.app = "create_folders" ∧ t.basedir = d) cfgML_MP.workload pre ∧
      List.Forall₂ (fun e i => ∃ t : Task, e = Event.submit t ∧ t.id = i)
        pre setupIds ∧
      List.Forall₂ (fun d sc => DatasetSegment d sc.1 sc.2)
        cfgML_MP.workload segcs ∧
      ∀ c ∈ segcs.map Prod.snd,
        ∃ t ∈ (runMain cfgML_MP glob1).1.tasks,
          t.id = c ∧ t.app = "clear_temporary_files" :=
  C4_amended_setup_batchwide_then_sequential cfgML_MP glob1 rfl rfl

end Biocomp
